import Mathlib

/-!
Verification of the `semanticscholar` client library.

The development shallowly embeds the two source files:

* `semanticscholar/__init__.py` — the metadata loader deriving `API_errors`
  from the bundled description document, and
* `semanticscholar/SemanticScholar.py` — the `SemanticScholar` class with its
  constructor, the public `paper`/`author` methods, and the retried internal
  `__get_data` primitive.

HTTP responses are modelled as a status code plus an already-parsed JSON body;
the network is an oracle assigning an outcome to each GET call, so that the
trace of a lookup (result, requests issued, inter-attempt waits) is a pure
function of the oracle.
-/

namespace SemanticScholarSpec

/-- Parsed JSON values: the shape of the response bodies that `r.json()`
yields inside `SemanticScholar.__get_data`.  Objects are association lists
with pairwise-distinct keys, as produced by `json.load`. -/
inductive Json where
  | obj : List (String × Json) → Json
  | arr : List Json → Json
  | str : String → Json
  | num : Int → Json
  | bool : Bool → Json
  | null : Json

/-- Python `len(data)`: number of keys for a mapping, number of elements for a
sequence, number of characters for a string; `none` models the `TypeError`
raised for numbers, booleans and `None`. -/
def pyLen : Json → Option Nat
  | .obj kvs => some kvs.length
  | .arr xs => some xs.length
  | .str s => some s.length
  | _ => none

/-- Python equality between the string literal `"error"` and a JSON value:
true exactly for the string `"error"`. -/
def isErrorString : Json → Bool
  | .str s => s == "error"
  | _ => false

/-- Python containment `"error" in data` for the body shapes on which
`len(data)` succeeds: key membership for mappings, element equality for
sequences, substring containment for strings.  `__get_data` only evaluates it
after `len(data)` succeeded (`and` short-circuits), so the remaining cases are
unreachable there and return `false`. -/
def pyContainsError : Json → Bool
  | .obj kvs => kvs.any (fun kv => kv.1 == "error")
  | .arr xs => xs.any isErrorString
  | .str s => decide (1 < (s.splitOn "error").length)
  | _ => false

/-- Python subscript `data["error"]`: key lookup on a mapping; `none` models
the `KeyError` raised when the key is absent and the `TypeError` raised when
the body is not a mapping. -/
def pyErrorField : Json → Option Json
  | .obj kvs => kvs.lookup "error"
  | _ => none

/-- `SemanticScholar.DEFAULT_API_URL`. -/
def DEFAULT_API_URL : String := "https://api.semanticscholar.org/v1"

/-- `SemanticScholar.GRAPH_API_URL`. -/
def GRAPH_API_URL : String := "https://api.semanticscholar.org/graph/v1"

/-- `SemanticScholar.DEFAULT_PARTNER_API_URL`. -/
def DEFAULT_PARTNER_API_URL : String := "https://partner.semanticscholar.org/v1"

/-- `SemanticScholar.GRAPH_PARTNER_API_URL`. -/
def GRAPH_PARTNER_API_URL : String := "https://partner.semanticscholar.org/graph/v1"

/-- Python truthiness of an optional string argument (`if api_url:` and
`if api_key:`): `None` and the empty string are falsy. -/
def pyTruthy : Option String → Bool
  | none => false
  | some s => s != ""

/-- The class-level state of `SemanticScholar`: the class attribute
`auth_header = {}`, shared by every instance that never assigned its own
`auth_header`. -/
structure ClassState where
  class_auth_header : List (String × String)

/-- The class state as the class body defines it: `auth_header = {}`. -/
def initialClassState : ClassState := { class_auth_header := [] }

/-- One `SemanticScholar` instance.  `inst_auth_header = none` models an
instance whose `__init__` never executed `self.auth_header = ...`, so that
reads of the attribute fall back to the class attribute. -/
structure Client where
  api_url : String
  inst_auth_header : Option (List (String × String))
  timeout : Int

/-- Python attribute lookup `self.auth_header`: the instance attribute when
the instance assigned one, the class attribute otherwise. -/
def Client.authHeader (cs : ClassState) (c : Client) : List (String × String) :=
  c.inst_auth_header.getD cs.class_auth_header

/-- `SemanticScholar.__init__` (lines 22 to 53).  Assigning
`self.auth_header = ...` creates an instance attribute and leaves the class
attribute untouched, hence the class state is returned unchanged. -/
def semanticScholarInit (cs : ClassState) (timeout : Int) (graph_api : Bool)
    (api_key : Option String) (api_url : Option String) : ClassState × Client :=
  let url0 :=
    if pyTruthy api_url then api_url.getD ""
    else if graph_api then GRAPH_API_URL else DEFAULT_API_URL
  let c : Client :=
    if pyTruthy api_key then
      { api_url :=
          if pyTruthy api_url then url0
          else if graph_api then GRAPH_PARTNER_API_URL else DEFAULT_PARTNER_API_URL
        inst_auth_header := some [("x-api-key", api_key.getD "")]
        timeout := timeout }
    else
      { api_url := url0, inst_auth_header := none, timeout := timeout }
  (cs, c)

/-- Arguments of one `SemanticScholar(...)` construction. -/
structure CtorArgs where
  timeout : Int
  graph_api : Bool
  api_key : Option String
  api_url : Option String

/-- Construct a sequence of clients in order, threading the class-level state
from one construction to the next. -/
def constructAll (cs : ClassState) : List CtorArgs → ClassState × List Client
  | [] => (cs, [])
  | a :: rest =>
    let p := semanticScholarInit cs a.timeout a.graph_api a.api_key a.api_url
    let q := constructAll p.1 rest
    (q.1, p.2 :: q.2)

/-- Python slice `s[:n]`: the first `n` characters (all of them when the
string is shorter). -/
def pySliceTo (s : String) (n : Nat) : String := String.mk (s.data.take n)

/-- Python slice `s[n:]`: everything from character `n` on (empty when the
string is shorter). -/
def pySliceFrom (s : String) (n : Nat) : String := String.mk (s.data.drop n)

/-- The `API_errors` comprehension from `semanticscholar/__init__.py` line 14:
keep the definitions whose name satisfies `key[:5] == "Error"` and key the
resulting map by `key[6:]`. -/
def buildApiErrors (defs : List (String × Json)) : List (String × Json) :=
  (defs.filter (fun kv => pySliceTo kv.1 5 == "Error")).map
    (fun kv => (pySliceFrom kv.1 6, kv.2))

/-- A GET request as `__get_data` issues it on line 119: URL, query
parameters, headers, timeout. -/
structure Request where
  url : String
  params : List (String × String)
  headers : List (String × String)
  timeout : Int

/-- Lines 114 to 118 of `__get_data`: build the query-parameter payload.  The
parameter `include_unknown_references=true` is added whenever the flag is
truthy — the method selector is not consulted — and `fields` is added,
comma-joined, whenever the list is non-empty.  List order mirrors Python dict
insertion order. -/
def buildPayload (fields : List String) (include_unknown_refs : Bool) :
    List (String × String) :=
  (if include_unknown_refs then [("include_unknown_references", "true")] else []) ++
  (if fields != [] then [("fields", String.intercalate "," fields)] else [])

/-- Lines 113 and 119 of `__get_data`: the GET request issued. -/
def buildRequest (c : Client) (hdr : List (String × String)) (method id : String)
    (fields : List String) (include_unknown_refs : Bool) : Request :=
  { url := c.api_url ++ "/" ++ method ++ "/" ++ id
    params := buildPayload fields include_unknown_refs
    headers := hdr
    timeout := c.timeout }

/-- The exceptions one attempt of `__get_data` can raise, together with the
failures the underlying `requests.get` call can signal. -/
inductive PyError where
  | valueError : PyError
  | permissionError : String → PyError
  | connectionRefusedError : String → PyError
  | semanticScholarError : Json → PyError
  | typeError : PyError
  | bodyAccessError : PyError
  | requestsFailure : PyError

/-- An HTTP response: status code and already-parsed body. -/
structure Response where
  status_code : Nat
  body : Json

/-- Outcome of one `requests.get` call: a response, or a raised network-level
failure (timeout or connection error from the `requests` library), which is
not a builtin `ConnectionRefusedError` and hence never retried. -/
inductive NetOutcome where
  | resp : Response → NetOutcome
  | netFailure : NetOutcome

/-- Lines 121 to 132 of `__get_data`: interpret the response by status code.
`api_errors` is the list of keys of the `API_errors` map; `data` starts as the
empty dict and is returned unchanged by the final fall-through branch. -/
def interpretResponse (api_errors : List String) (r : Response) :
    Except PyError Json :=
  if r.status_code == 200 then
    match pyLen r.body with
    | none => .error .typeError
    | some n =>
      if n == 1 && pyContainsError r.body then .ok (Json.obj [])
      else .ok r.body
  else if r.status_code == 403 then
    .error (.permissionError "HTTP status 403 Forbidden.")
  else if r.status_code == 429 then
    .error (.connectionRefusedError "HTTP status 429 Too Many Requests.")
  else if api_errors.contains (toString r.status_code) then
    match pyErrorField r.body with
    | some v => .error (.semanticScholarError v)
    | none => .error .bodyAccessError
  else .ok (Json.obj [])

/-- One attempt of `__get_data` (the body the `retry` decorator wraps):
validate the method selector — an invalid selector raises `ValueError` before
any request is built or sent — then issue the GET and interpret the response.
Returns the request issued, if any, alongside the outcome. -/
def getDataAttempt (api_errors : List String) (c : Client)
    (hdr : List (String × String)) (method id : String) (fields : List String)
    (include_unknown_refs : Bool) (out : NetOutcome) :
    Option Request × Except PyError Json :=
  if (["paper", "author"] : List String).contains method then
    let rq := buildRequest c hdr method id fields include_unknown_refs
    match out with
    | .netFailure => (some rq, .error .requestsFailure)
    | .resp r => (some rq, interpretResponse api_errors r)
  else (none, .error .valueError)

/-- Does tenacity retry this exception?  The decorator configures
`retry_if_exception_type(ConnectionRefusedError)`, so exactly the 429-induced
`ConnectionRefusedError` is retried. -/
def isRetryable : PyError → Bool
  | .connectionRefusedError _ => true
  | _ => false

/-- The observable trace of one logical lookup: the final outcome, the GET
requests issued in order, and the sleeps (in seconds) taken between
attempts. -/
structure LookupTrace where
  result : Except PyError Json
  requests : List Request
  waits : List Nat

/-- The tenacity retry loop around `__get_data`: `wait_fixed(30)`,
`stop_after_attempt(10)`, retrying exactly on `ConnectionRefusedError`.
`remaining` counts the attempts still allowed including the current one, and
`idx` numbers the network calls; after the final allowed attempt fails, the
last failure surfaces to the caller (tenacity delivers it wrapped in a
`RetryError` that carries it).  The fuel-zero case is unreachable from
`getData`, which starts with positive fuel and only recurses on positive
`remaining`. -/
def runAttempts (api_errors : List String) (c : Client)
    (hdr : List (String × String)) (method id : String) (fields : List String)
    (include_unknown_refs : Bool) (net : Nat → NetOutcome) :
    Nat → Nat → LookupTrace
  | 0, _ => { result := .error .valueError, requests := [], waits := [] }
  | remaining + 1, idx =>
    let a := getDataAttempt api_errors c hdr method id fields include_unknown_refs (net idx)
    match a.2 with
    | .ok d => { result := .ok d, requests := a.1.toList, waits := [] }
    | .error e =>
      if isRetryable e && remaining != 0 then
        let rest := runAttempts api_errors c hdr method id fields
          include_unknown_refs net remaining (idx + 1)
        { result := rest.result
          requests := a.1.toList ++ rest.requests
          waits := 30 :: rest.waits }
      else { result := .error e, requests := a.1.toList, waits := [] }

/-- `__get_data` as reached through the public methods: at most 10 attempts,
network calls numbered from 0. -/
def getData (api_errors : List String) (c : Client) (hdr : List (String × String))
    (method id : String) (fields : List String) (include_unknown_refs : Bool)
    (net : Nat → NetOutcome) : LookupTrace :=
  runAttempts api_errors c hdr method id fields include_unknown_refs net 10 0

/-- `SemanticScholar.paper` (lines 55 to 70): delegates to `__get_data` with
method selector `paper`. -/
def Client.paper (api_errors : List String) (c : Client)
    (hdr : List (String × String)) (id : String) (fields : List String)
    (include_unknown_refs : Bool) (net : Nat → NetOutcome) : LookupTrace :=
  getData api_errors c hdr "paper" id fields include_unknown_refs net

/-- `SemanticScholar.author` (lines 72 to 83): delegates to `__get_data` with
method selector `author` and `include_unknown_refs` always `False`. -/
def Client.author (api_errors : List String) (c : Client)
    (hdr : List (String × String)) (id : String) (fields : List String)
    (net : Nat → NetOutcome) : LookupTrace :=
  getData api_errors c hdr "author" id fields false net

/-- A default-configured client, as built by `SemanticScholar()`. -/
def exampleClient : Client :=
  (semanticScholarInit initialClassState 2 false none none).2

/-! ## Helper lemmas -/

theorem runAttempts_succ (api_errors : List String) (c : Client)
    (hdr : List (String × String)) (method id : String) (fields : List String)
    (iur : Bool) (net : Nat → NetOutcome) (remaining idx : Nat) :
    runAttempts api_errors c hdr method id fields iur net (remaining + 1) idx =
      (let a := getDataAttempt api_errors c hdr method id fields iur (net idx)
      match a.2 with
      | .ok d => { result := .ok d, requests := a.1.toList, waits := [] }
      | .error e =>
        if isRetryable e && remaining != 0 then
          let rest := runAttempts api_errors c hdr method id fields iur net remaining (idx + 1)
          { result := rest.result
            requests := a.1.toList ++ rest.requests
            waits := 30 :: rest.waits }
        else { result := .error e, requests := a.1.toList, waits := [] }) := rfl

theorem getDataAttempt_resp_valid (api_errors : List String) (c : Client)
    (hdr : List (String × String)) (method id : String) (fields : List String)
    (iur : Bool) (r : Response)
    (hm : (["paper", "author"] : List String).contains method = true) :
    getDataAttempt api_errors c hdr method id fields iur (.resp r)
      = (some (buildRequest c hdr method id fields iur), interpretResponse api_errors r) := by
  have hm2 : method = "paper" ∨ method = "author" := by simpa using hm
  simp [getDataAttempt, hm]
  tauto

theorem getDataAttempt_net_valid (api_errors : List String) (c : Client)
    (hdr : List (String × String)) (method id : String) (fields : List String)
    (iur : Bool)
    (hm : (["paper", "author"] : List String).contains method = true) :
    getDataAttempt api_errors c hdr method id fields iur .netFailure
      = (some (buildRequest c hdr method id fields iur), .error .requestsFailure) := by
  have hm2 : method = "paper" ∨ method = "author" := by simpa using hm
  simp [getDataAttempt, hm]
  tauto

theorem contains_paper : (["paper", "author"] : List String).contains "paper" = true := rfl

theorem contains_author : (["paper", "author"] : List String).contains "author" = true := rfl

theorem contains_of_valid (method : String) (hm : method = "paper" ∨ method = "author") :
    (["paper", "author"] : List String).contains method = true := by
  rcases hm with h | h <;> subst h <;> rfl

theorem runAttempts_ok (api_errors : List String) (c : Client)
    (hdr : List (String × String)) (method id : String) (fields : List String)
    (iur : Bool) (net : Nat → NetOutcome) (remaining idx : Nat) (d : Json)
    (h : (getDataAttempt api_errors c hdr method id fields iur (net idx)).2 = .ok d) :
    runAttempts api_errors c hdr method id fields iur net (remaining + 1) idx =
      { result := .ok d
        requests := (getDataAttempt api_errors c hdr method id fields iur (net idx)).1.toList
        waits := [] } := by
  rw [runAttempts_succ]
  simp only [h]

theorem runAttempts_no_retry (api_errors : List String) (c : Client)
    (hdr : List (String × String)) (method id : String) (fields : List String)
    (iur : Bool) (net : Nat → NetOutcome) (remaining idx : Nat) (e : PyError)
    (h : (getDataAttempt api_errors c hdr method id fields iur (net idx)).2 = .error e)
    (hr : isRetryable e = false) :
    runAttempts api_errors c hdr method id fields iur net (remaining + 1) idx =
      { result := .error e
        requests := (getDataAttempt api_errors c hdr method id fields iur (net idx)).1.toList
        waits := [] } := by
  rw [runAttempts_succ]
  simp only [h, hr, Bool.false_and, Bool.false_eq_true, if_false]

theorem interpret_200 (api_errors : List String) (body : Json) (n : Nat)
    (hlen : pyLen body = some n) :
    interpretResponse api_errors { status_code := 200, body := body }
      = .ok (if n == 1 && pyContainsError body then Json.obj [] else body) := by
  simp only [interpretResponse, hlen]
  norm_num
  split <;> rfl

theorem interpret_403 (api_errors : List String) (body : Json) :
    interpretResponse api_errors { status_code := 403, body := body }
      = .error (.permissionError "HTTP status 403 Forbidden.") := rfl

theorem interpret_429 (api_errors : List String) (body : Json) :
    interpretResponse api_errors { status_code := 429, body := body }
      = .error (.connectionRefusedError "HTTP status 429 Too Many Requests.") := rfl

theorem interpret_other (api_errors : List String) (code : Nat) (body : Json)
    (h200 : code ≠ 200) (h403 : code ≠ 403) (h429 : code ≠ 429) :
    interpretResponse api_errors { status_code := code, body := body }
      = (if api_errors.contains (toString code) then
          (match pyErrorField body with
            | some v => .error (.semanticScholarError v)
            | none => .error .bodyAccessError)
        else .ok (Json.obj [])) := by
  simp only [interpretResponse]
  rw [if_neg, if_neg, if_neg]
  · simpa using h429
  · simpa using h403
  · simpa using h200

theorem runAttempts_all429 (api_errors : List String) (c : Client)
    (hdr : List (String × String)) (method id : String) (fields : List String)
    (iur : Bool) (net : Nat → NetOutcome)
    (hm : (["paper", "author"] : List String).contains method = true) :
    ∀ remaining idx,
      (∀ i, i < remaining + 1 → ∃ b, net (idx + i) = NetOutcome.resp { status_code := 429, body := b }) →
      runAttempts api_errors c hdr method id fields iur net (remaining + 1) idx =
        { result := .error (.connectionRefusedError "HTTP status 429 Too Many Requests.")
          requests := List.replicate (remaining + 1) (buildRequest c hdr method id fields iur)
          waits := List.replicate remaining 30 } := by
  intro remaining
  induction remaining with
  | zero =>
    intro idx h
    obtain ⟨b, hb⟩ := h 0 (by omega)
    rw [Nat.add_zero] at hb
    rw [runAttempts_succ]
    simp only [hb, getDataAttempt_resp_valid api_errors c hdr method id fields iur _ hm,
      interpret_429]
    rfl
  | succ m ih =>
    intro idx h
    obtain ⟨b, hb⟩ := h 0 (by omega)
    rw [Nat.add_zero] at hb
    rw [runAttempts_succ]
    simp only [hb, getDataAttempt_resp_valid api_errors c hdr method id fields iur _ hm,
      interpret_429]
    have hrest := ih (idx + 1) (by
      intro i hi
      obtain ⟨b2, hb2⟩ := h (i + 1) (by omega)
      exact ⟨b2, by rw [← hb2]; ring_nf⟩)
    simp only [isRetryable, Bool.true_and]
    rw [if_pos (by simp)]
    simp only [hrest]
    rfl

theorem getDataAttempt_fst (api_errors : List String) (c : Client)
    (hdr : List (String × String)) (method id : String) (fields : List String)
    (iur : Bool) (out : NetOutcome) :
    (getDataAttempt api_errors c hdr method id fields iur out).1 = none ∨
    (getDataAttempt api_errors c hdr method id fields iur out).1
      = some (buildRequest c hdr method id fields iur) := by
  simp only [getDataAttempt]
  split
  · cases out <;> simp
  · simp

theorem mem_requests_eq (api_errors : List String) (c : Client)
    (hdr : List (String × String)) (method id : String) (fields : List String)
    (iur : Bool) (net : Nat → NetOutcome) :
    ∀ fuel idx rq,
      rq ∈ (runAttempts api_errors c hdr method id fields iur net fuel idx).requests →
      rq = buildRequest c hdr method id fields iur := by
  intro fuel
  induction fuel with
  | zero => intro idx rq h; simp [runAttempts] at h
  | succ m ih =>
    intro idx rq h
    rw [runAttempts_succ] at h
    rcases getDataAttempt_fst api_errors c hdr method id fields iur (net idx) with h1 | h1 <;>
      rcases hmatch : (getDataAttempt api_errors c hdr method id fields iur (net idx)).2 with e | d
    · simp only [hmatch, h1, Option.toList_none, List.nil_append] at h
      split at h
      · exact ih (idx + 1) rq (by simpa using h)
      · simp at h
    · simp only [hmatch, h1, Option.toList_none] at h
      simp at h
    · simp only [hmatch, h1, Option.toList_some, List.singleton_append] at h
      split at h
      · rcases List.mem_cons.mp (by simpa using h) with h2 | h2
        · exact h2
        · exact ih (idx + 1) rq h2
      · simpa using h
    · simp only [hmatch, h1, Option.toList_some] at h
      simpa using h

theorem include_unknown_mem_payload (fields : List String) (iur : Bool) :
    ("include_unknown_references", "true") ∈ buildPayload fields iur ↔ iur = true := by
  cases iur with
  | true => simp [buildPayload]
  | false =>
    simp only [buildPayload, if_false, Bool.false_eq_true, List.nil_append]
    constructor
    · intro h
      by_cases hf : fields = []
      · simp [hf] at h
      · have : (fields != []) = true := by simpa using hf
        rw [if_pos this] at h
        simp at h
    · intro h; exact absurd h (by simp)

theorem payload_filter (fields : List String) (iur : Bool) :
    (buildPayload fields iur).filter (fun p => p.1 == "fields")
      = if fields != [] then [("fields", String.intercalate "," fields)] else [] := by
  simp only [buildPayload]
  cases iur <;> by_cases h : fields = [] <;>
    simp [h, List.filter, show (("include_unknown_references" : String) == "fields") = false from rfl]

theorem semanticScholarInit_fst (cs : ClassState) (t : Int) (g : Bool)
    (k u : Option String) : (semanticScholarInit cs t g k u).1 = cs := rfl

theorem constructAll_eq (cs : ClassState) (args : List CtorArgs) :
    constructAll cs args =
      (cs, args.map (fun a => (semanticScholarInit cs a.timeout a.graph_api a.api_key a.api_url).2)) := by
  induction args with
  | nil => rfl
  | cons a rest ih => simp [constructAll, semanticScholarInit_fst, ih]

theorem init_header_none (cs : ClassState) (t : Int) (g : Bool) (k u : Option String)
    (h : pyTruthy k = false) :
    ((semanticScholarInit cs t g k u).2).inst_auth_header = none := by
  simp [semanticScholarInit, h]

theorem init_header_some (cs : ClassState) (t : Int) (g : Bool) (k u : Option String)
    (h : pyTruthy k = true) :
    ((semanticScholarInit cs t g k u).2).inst_auth_header
      = some [("x-api-key", k.getD "")] := by
  simp [semanticScholarInit, h]

theorem zip_map_self {α β : Type} (g : α → β) :
    ∀ (l : List α), ∀ p ∈ l.zip (l.map g), p.2 = g p.1 := by
  intro l
  induction l with
  | nil => simp
  | cons a rest ih =>
    intro p hp
    simp only [List.map_cons, List.zip_cons_cons, List.mem_cons] at hp
    rcases hp with h | h
    · subst h; rfl
    · exact ih p h

/-! ## Claim theorems -/

/-- Claim C1, counterexample: on a description document with definitions
`FullPaper`, `Author`, `ErrorNotFound` and `ErrorForbidden`, the error map
built by the loader is keyed `otFound` and `orbidden` — the claimed key
`NotFound` is absent, because the comprehension strips `key[6:]` (six
characters) although the matched marker `Error` is five characters long. -/
theorem c1_counterexample :
    (buildApiErrors [("FullPaper", Json.null), ("Author", Json.null),
        ("ErrorNotFound", Json.null), ("ErrorForbidden", Json.null)]).map Prod.fst
      = ["otFound", "orbidden"] ∧
    "NotFound" ∉ (buildApiErrors [("FullPaper", Json.null), ("Author", Json.null),
        ("ErrorNotFound", Json.null), ("ErrorForbidden", Json.null)]).map Prod.fst ∧
    "Forbidden" ∉ (buildApiErrors [("FullPaper", Json.null), ("Author", Json.null),
        ("ErrorNotFound", Json.null), ("ErrorForbidden", Json.null)]).map Prod.fst := by
  refine ⟨by decide, by decide, by decide⟩

/-- Claim C1, amended: the loader scans every definition name for the
5-character marker `Error` at positions `[:5]` but keys the map by the name
with its FIRST SIX characters stripped (`key[6:]`): for a document with
definitions `FullPaper`, `Author`, `ErrorNotFound` and `ErrorForbidden` the
error map has exactly the keys `otFound` and `orbidden`, each mapped to the
corresponding schema definition. -/
theorem c1_theorem : ∀ v1 v2 v3 v4 : Json,
    buildApiErrors [("FullPaper", v1), ("Author", v2), ("ErrorNotFound", v3),
        ("ErrorForbidden", v4)]
      = [("otFound", v3), ("orbidden", v4)] := by
  intro v1 v2 v3 v4
  rfl

/-- Claim C3: base URL selection.  With no truthy override URL,
`useGraphApi = false` and no truthy API key the base URL is the public legacy
URL; with `useGraphApi = true` and a key it is the partner graph URL; whenever
a truthy override URL is given (with or without a key) the base URL equals the
override exactly; the remaining two no-override cases give the public graph
URL (graph, no key) and the legacy partner URL (legacy, key). -/
theorem c3_theorem (cs : ClassState) (t : Int) (g : Bool) (k u : Option String) :
    (pyTruthy u = false → g = false → pyTruthy k = false →
      ((semanticScholarInit cs t g k u).2).api_url = DEFAULT_API_URL) ∧
    (pyTruthy u = false → g = true → pyTruthy k = true →
      ((semanticScholarInit cs t g k u).2).api_url = GRAPH_PARTNER_API_URL) ∧
    (∀ s, u = some s → pyTruthy u = true →
      ((semanticScholarInit cs t g k u).2).api_url = s) ∧
    (pyTruthy u = false → g = true → pyTruthy k = false →
      ((semanticScholarInit cs t g k u).2).api_url = GRAPH_API_URL) ∧
    (pyTruthy u = false → g = false → pyTruthy k = true →
      ((semanticScholarInit cs t g k u).2).api_url = DEFAULT_PARTNER_API_URL) := by
  refine ⟨?_, ?_, ?_, ?_, ?_⟩
  · intro hu hg hk; subst hg; simp [semanticScholarInit, hu, hk]
  · intro hu hg hk; subst hg; simp [semanticScholarInit, hu, hk]
  · intro s hs hu
    subst hs
    by_cases hk : pyTruthy k = true <;> simp [semanticScholarInit, hu, hk]
  · intro hu hg hk; subst hg; simp [semanticScholarInit, hu, hk]
  · intro hu hg hk; subst hg; simp [semanticScholarInit, hu, hk]

/-- Claim C3, witness: the concrete no-override legacy keyless case yields the
public legacy URL, and a concrete override beats a concrete key. -/
theorem c3_witness :
    ((semanticScholarInit initialClassState 2 false none none).2).api_url
      = DEFAULT_API_URL ∧
    ((semanticScholarInit initialClassState 2 true (some "k") (some "http://x")).2).api_url
      = "http://x" := by
  constructor
  · exact (c3_theorem initialClassState 2 false none none).1 rfl rfl rfl
  · exact (c3_theorem initialClassState 2 true (some "k") (some "http://x")).2.2.1
      "http://x" rfl rfl

/-- Claim C9: for every method selector other than `paper` or `author`, the
lookup primitive fails immediately with the invalid-operation condition
(`ValueError`), issues zero network requests, and performs no retry waits. -/
theorem c9_theorem (api_errors : List String) (c : Client)
    (hdr : List (String × String)) (method id : String) (fields : List String)
    (iur : Bool) (net : Nat → NetOutcome)
    (h1 : method ≠ "paper") (h2 : method ≠ "author") :
    getData api_errors c hdr method id fields iur net
      = { result := .error .valueError, requests := [], waits := [] } := by
  have hc : (["paper", "author"] : List String).contains method = false := by
    simp [h1, h2]
  have ha : getDataAttempt api_errors c hdr method id fields iur (net 0)
      = (none, .error .valueError) := by
    simp [getDataAttempt, hc]
    tauto
  show runAttempts api_errors c hdr method id fields iur net (9 + 1) 0 = _
  rw [runAttempts_no_retry api_errors c hdr method id fields iur net 9 0 .valueError
    (by rw [ha]) rfl]
  rw [ha]
  rfl

/-- Claim C9, witness: a concrete unrecognized selector fails with
`ValueError` and makes no network call. -/
theorem c9_witness :
    getData [] exampleClient [] "citation" "42" [] false
        (fun _ => NetOutcome.resp { status_code := 200, body := Json.obj [] })
      = { result := .error .valueError, requests := [], waits := [] } := by
  exact c9_theorem [] exampleClient [] "citation" "42" [] false
    (fun _ => NetOutcome.resp { status_code := 200, body := Json.obj [] })
    (by decide) (by decide)

/-- Claim C10: constructing clients never mutates the class-level shared
default `auth_header`.  For any sequence of constructions starting from the
pristine class state, the class attribute stays the empty mapping; every
client constructed with a truthy API key owns an instance attribute
`x-api-key`; and every client constructed without a truthy key reads the
(untouched) class attribute, i.e. the empty header — regardless of how many
keyed clients were constructed before or after it. -/
theorem c10_theorem (args : List CtorArgs) :
    (constructAll initialClassState args).1 = initialClassState ∧
    ∀ p ∈ args.zip (constructAll initialClassState args).2,
      (pyTruthy p.1.api_key = false →
        Client.authHeader (constructAll initialClassState args).1 p.2 = []) ∧
      (pyTruthy p.1.api_key = true →
        p.2.inst_auth_header = some [("x-api-key", p.1.api_key.getD "")]) := by
  rw [constructAll_eq]
  refine ⟨rfl, ?_⟩
  intro p hp
  have hval := zip_map_self
    (fun a => (semanticScholarInit initialClassState a.timeout a.graph_api a.api_key a.api_url).2)
    args p hp
  constructor
  · intro hk
    rw [hval]
    simp only [Client.authHeader,
      init_header_none initialClassState p.1.timeout p.1.graph_api p.1.api_key p.1.api_url hk]
    rfl
  · intro hk
    rw [hval]
    exact init_header_some initialClassState p.1.timeout p.1.graph_api p.1.api_key p.1.api_url hk

/-- Claim C10, witness: after constructing a keyed client and then a keyless
one, the class state is untouched, the keyless client reads the empty header
and the keyed client owns its `x-api-key` instance header. -/
theorem c10_witness :
    (constructAll initialClassState
        [{ timeout := 2, graph_api := false, api_key := some "SECRET", api_url := none },
         { timeout := 2, graph_api := true, api_key := none, api_url := none }]).1
      = initialClassState ∧
    Client.authHeader
        (constructAll initialClassState
          [{ timeout := 2, graph_api := false, api_key := some "SECRET", api_url := none },
           { timeout := 2, graph_api := true, api_key := none, api_url := none }]).1
        ((constructAll initialClassState
          [{ timeout := 2, graph_api := false, api_key := some "SECRET", api_url := none },
           { timeout := 2, graph_api := true, api_key := none, api_url := none }]).2.get
          ⟨1, by simp [constructAll_eq]⟩)
      = [] := by
  have h := c10_theorem
    [{ timeout := 2, graph_api := false, api_key := some "SECRET", api_url := none },
     { timeout := 2, graph_api := true, api_key := none, api_url := none }]
  refine ⟨h.1, ?_⟩
  have h2 := (h.2
    ({ timeout := 2, graph_api := true, api_key := none, api_url := none },
     (constructAll initialClassState
        [{ timeout := 2, graph_api := false, api_key := some "SECRET", api_url := none },
         { timeout := 2, graph_api := true, api_key := none, api_url := none }]).2.get
        ⟨1, by simp [constructAll_eq]⟩)
    (by simp [constructAll_eq])).1 rfl
  simpa using h2

/-- Claim C2, counterexample: a 200 response whose body is the one-element
array `["error"]` is NOT returned unchanged — Python evaluates
`len(data) == 1 and "error" in data` to true on it, so `paper()` normalizes it
to the empty record, refuting the claim that every 200 body other than the
single-key `error` mapping is returned as-is. -/
theorem c2_counterexample :
    (Client.paper [] exampleClient [] "x" [] false
        (fun _ => NetOutcome.resp
          { status_code := 200, body := Json.arr [Json.str "error"] })).result
      = .ok (Json.obj []) ∧
    Json.obj [] ≠ Json.arr [Json.str "error"] :=
  ⟨rfl, fun h => Json.noConfusion h⟩

/-- Claim C2, amended: for every 200 response whose parsed body supports
`len` (mapping, sequence or string), both `paper()` and `author()` return the
empty record exactly when the body has length 1 and contains `error` under
Python semantics — which covers the single-key mapping `\x7berror: ...\x7d`
but also, e.g., the one-element array `["error"]` — and return the parsed
body unchanged otherwise. -/
theorem c2_theorem (api_errors : List String) (c : Client)
    (hdr : List (String × String)) (id : String) (fields : List String)
    (iur : Bool) (net : Nat → NetOutcome) (body : Json) (n : Nat)
    (hnet : net 0 = NetOutcome.resp { status_code := 200, body := body })
    (hlen : pyLen body = some n) :
    (Client.paper api_errors c hdr id fields iur net).result
      = .ok (if n == 1 && pyContainsError body then Json.obj [] else body) ∧
    (Client.author api_errors c hdr id fields net).result
      = .ok (if n == 1 && pyContainsError body then Json.obj [] else body) := by
  have hi := interpret_200 api_errors body n hlen
  constructor
  · have h2 : (getDataAttempt api_errors c hdr "paper" id fields iur (net 0)).2
        = .ok (if n == 1 && pyContainsError body then Json.obj [] else body) := by
      rw [hnet, getDataAttempt_resp_valid api_errors c hdr "paper" id fields iur _
        contains_paper]
      exact hi
    show (runAttempts api_errors c hdr "paper" id fields iur net (9 + 1) 0).result = _
    rw [runAttempts_ok api_errors c hdr "paper" id fields iur net 9 0 _ h2]
  · have h2 : (getDataAttempt api_errors c hdr "author" id fields false (net 0)).2
        = .ok (if n == 1 && pyContainsError body then Json.obj [] else body) := by
      rw [hnet, getDataAttempt_resp_valid api_errors c hdr "author" id fields false _
        contains_author]
      exact hi
    show (runAttempts api_errors c hdr "author" id fields false net (9 + 1) 0).result = _
    rw [runAttempts_ok api_errors c hdr "author" id fields false net 9 0 _ h2]

/-- Claim C2, witness: concretely, a 200 body that is exactly the single-key
mapping on `error` comes back as the empty record. -/
theorem c2_witness :
    (Client.paper [] exampleClient [] "x" [] false
        (fun _ => NetOutcome.resp
          { status_code := 200, body := Json.obj [("error", Json.str "not found")] })).result
      = .ok (Json.obj []) := by
  have h := (c2_theorem [] exampleClient [] "x" [] false
    (fun _ => NetOutcome.resp
      { status_code := 200, body := Json.obj [("error", Json.str "not found")] })
    (Json.obj [("error", Json.str "not found")]) 1 rfl rfl).1
  rw [h]
  rfl

/-- Claim C5: for every response whose status code is not 200, 403 or 429 —
if the status code rendered as a string matches a key of the API error map,
the lookup fails (in one attempt, no retry) with the application-level
`SemanticScholarError` carrying the value of the body's `error` field; for
any other such status code it falls through and returns the empty record. -/
theorem c5_theorem (api_errors : List String) (c : Client)
    (hdr : List (String × String)) (method id : String) (fields : List String)
    (iur : Bool) (net : Nat → NetOutcome) (code : Nat) (body msg : Json)
    (hm : method = "paper" ∨ method = "author")
    (h200 : code ≠ 200) (h403 : code ≠ 403) (h429 : code ≠ 429)
    (hnet : net 0 = NetOutcome.resp { status_code := code, body := body }) :
    (api_errors.contains (toString code) = true → pyErrorField body = some msg →
      getData api_errors c hdr method id fields iur net
        = { result := .error (.semanticScholarError msg)
            requests := [buildRequest c hdr method id fields iur]
            waits := [] }) ∧
    (api_errors.contains (toString code) = false →
      getData api_errors c hdr method id fields iur net
        = { result := .ok (Json.obj [])
            requests := [buildRequest c hdr method id fields iur]
            waits := [] }) := by
  have hcm := contains_of_valid method hm
  have hpair := getDataAttempt_resp_valid api_errors c hdr method id fields iur
    { status_code := code, body := body } hcm
  constructor
  · intro hcont herr
    have h2 : (getDataAttempt api_errors c hdr method id fields iur (net 0)).2
        = .error (.semanticScholarError msg) := by
      rw [hnet, hpair]
      show interpretResponse api_errors { status_code := code, body := body } = _
      rw [interpret_other api_errors code body h200 h403 h429]
      have hmem : toString code ∈ api_errors := by simpa using hcont
      simp [hmem, herr]
    show runAttempts api_errors c hdr method id fields iur net (9 + 1) 0 = _
    rw [runAttempts_no_retry api_errors c hdr method id fields iur net 9 0 _ h2 rfl]
    rw [hnet, hpair]
    rfl
  · intro hcont
    have h2 : (getDataAttempt api_errors c hdr method id fields iur (net 0)).2
        = .ok (Json.obj []) := by
      rw [hnet, hpair]
      show interpretResponse api_errors { status_code := code, body := body } = _
      rw [interpret_other api_errors code body h200 h403 h429]
      have hmem : toString code ∉ api_errors := by simpa using hcont
      simp [hmem]
    show runAttempts api_errors c hdr method id fields iur net (9 + 1) 0 = _
    rw [runAttempts_ok api_errors c hdr method id fields iur net 9 0 _ h2]
    rw [hnet, hpair]
    rfl

/-- Claim C5, witness: with error map keys `["404"]`, a 404 response whose
body carries an `error` field fails with `SemanticScholarError` on that
message in a single attempt, and a 500 response (no matching key) falls
through to the empty record. -/
theorem c5_witness :
    getData ["404"] exampleClient [] "paper" "x" [] false
        (fun _ => NetOutcome.resp
          { status_code := 404, body := Json.obj [("error", Json.str "Paper not found")] })
      = { result := .error (.semanticScholarError (Json.str "Paper not found"))
          requests := [buildRequest exampleClient [] "paper" "x" [] false]
          waits := [] } ∧
    getData ["404"] exampleClient [] "paper" "x" [] false
        (fun _ => NetOutcome.resp { status_code := 500, body := Json.obj [] })
      = { result := .ok (Json.obj [])
          requests := [buildRequest exampleClient [] "paper" "x" [] false]
          waits := [] } := by
  constructor
  · have h := c5_theorem ["404"] exampleClient [] "paper" "x" [] false
      (fun _ => NetOutcome.resp
        { status_code := 404, body := Json.obj [("error", Json.str "Paper not found")] })
      404 (Json.obj [("error", Json.str "Paper not found")]) (Json.str "Paper not found")
      (Or.inl rfl) (by decide) (by decide) (by decide) rfl
    exact h.1 rfl rfl
  · have h := c5_theorem ["404"] exampleClient [] "paper" "x" [] false
      (fun _ => NetOutcome.resp { status_code := 500, body := Json.obj [] })
      500 (Json.obj []) Json.null
      (Or.inl rfl) (by decide) (by decide) (by decide) rfl
    exact h.2 rfl

/-- Claim C6: every 403 response makes `paper()` and `author()` fail with the
Forbidden condition (`PermissionError`), with zero retries: exactly one
network request is issued and no retry wait occurs. -/
theorem c6_theorem (api_errors : List String) (c : Client)
    (hdr : List (String × String)) (id : String) (fields : List String)
    (iur : Bool) (net : Nat → NetOutcome) (body : Json)
    (hnet : net 0 = NetOutcome.resp { status_code := 403, body := body }) :
    Client.paper api_errors c hdr id fields iur net
      = { result := .error (.permissionError "HTTP status 403 Forbidden.")
          requests := [buildRequest c hdr "paper" id fields iur]
          waits := [] } ∧
    Client.author api_errors c hdr id fields net
      = { result := .error (.permissionError "HTTP status 403 Forbidden.")
          requests := [buildRequest c hdr "author" id fields false]
          waits := [] } := by
  constructor
  · have hpair := getDataAttempt_resp_valid api_errors c hdr "paper" id fields iur
      { status_code := 403, body := body } contains_paper
    have h2 : (getDataAttempt api_errors c hdr "paper" id fields iur (net 0)).2
        = .error (.permissionError "HTTP status 403 Forbidden.") := by
      rw [hnet, hpair]
      exact interpret_403 api_errors body
    show runAttempts api_errors c hdr "paper" id fields iur net (9 + 1) 0 = _
    rw [runAttempts_no_retry api_errors c hdr "paper" id fields iur net 9 0 _ h2 rfl]
    rw [hnet, hpair]
    rfl
  · have hpair := getDataAttempt_resp_valid api_errors c hdr "author" id fields false
      { status_code := 403, body := body } contains_author
    have h2 : (getDataAttempt api_errors c hdr "author" id fields false (net 0)).2
        = .error (.permissionError "HTTP status 403 Forbidden.") := by
      rw [hnet, hpair]
      exact interpret_403 api_errors body
    show runAttempts api_errors c hdr "author" id fields false net (9 + 1) 0 = _
    rw [runAttempts_no_retry api_errors c hdr "author" id fields false net 9 0 _ h2 rfl]
    rw [hnet, hpair]
    rfl

/-- Claim C6, witness: a concrete 403 response gives the Forbidden failure
with exactly one request and no waits. -/
theorem c6_witness :
    Client.paper [] exampleClient [] "x" [] false
        (fun _ => NetOutcome.resp { status_code := 403, body := Json.obj [] })
      = { result := .error (.permissionError "HTTP status 403 Forbidden.")
          requests := [buildRequest exampleClient [] "paper" "x" [] false]
          waits := [] } := by
  exact (c6_theorem [] exampleClient [] "x" [] false
    (fun _ => NetOutcome.resp { status_code := 403, body := Json.obj [] })
    (Json.obj []) rfl).1

/-- Claim C4: the lookup primitive is retried automatically exactly on the
rate-limit condition.  A 429-induced failure is the only retryable one and
only a 429 response produces it; with every response a 429, ten attempts are
made with a fixed 30-second wait between consecutive attempts and the
rate-limit failure then surfaces; any non-retryable attempt failure —
Forbidden, application-level error, network failure — propagates after a
single request with no wait, and an invalid method selector propagates with
no request at all. -/
theorem c4_theorem (api_errors : List String) (c : Client)
    (hdr : List (String × String)) (method id : String) (fields : List String)
    (iur : Bool) (net : Nat → NetOutcome) :
    (∀ r s, interpretResponse api_errors r
        = .error (.connectionRefusedError s) → r.status_code = 429) ∧
    (method = "paper" ∨ method = "author" →
      (∀ i, i < 10 → ∃ b, net i = NetOutcome.resp { status_code := 429, body := b }) →
      getData api_errors c hdr method id fields iur net
        = { result := .error (.connectionRefusedError "HTTP status 429 Too Many Requests.")
            requests := List.replicate 10 (buildRequest c hdr method id fields iur)
            waits := List.replicate 9 30 }) ∧
    (method = "paper" ∨ method = "author" →
      ∀ b r d, net 0 = NetOutcome.resp { status_code := 429, body := b } →
        net 1 = NetOutcome.resp r → interpretResponse api_errors r = .ok d →
        getData api_errors c hdr method id fields iur net
          = { result := .ok d
              requests := List.replicate 2 (buildRequest c hdr method id fields iur)
              waits := [30] }) ∧
    (method = "paper" ∨ method = "author" →
      ∀ r e, net 0 = NetOutcome.resp r → interpretResponse api_errors r = .error e →
        isRetryable e = false →
        getData api_errors c hdr method id fields iur net
          = { result := .error e
              requests := [buildRequest c hdr method id fields iur]
              waits := [] }) ∧
    (method = "paper" ∨ method = "author" → net 0 = NetOutcome.netFailure →
      getData api_errors c hdr method id fields iur net
        = { result := .error .requestsFailure
            requests := [buildRequest c hdr method id fields iur]
            waits := [] }) ∧
    (method ≠ "paper" → method ≠ "author" →
      getData api_errors c hdr method id fields iur net
        = { result := .error .valueError, requests := [], waits := [] }) := by
  refine ⟨?_, ?_, ?_, ?_, ?_, ?_⟩
  · intro r s hr
    obtain ⟨code, body⟩ := r
    show code = 429
    by_cases h429 : code = 429
    · exact h429
    exfalso
    by_cases h200 : code = 200
    · subst h200
      rcases hl : pyLen body with _ | n
      · have : interpretResponse api_errors { status_code := 200, body := body }
            = .error .typeError := by
          simp [interpretResponse, hl]
        rw [this] at hr
        simp at hr
      · rw [interpret_200 api_errors body n hl] at hr
        simp at hr
    by_cases h403 : code = 403
    · subst h403
      rw [interpret_403] at hr
      simp at hr
    rw [interpret_other api_errors code body h200 h403 h429] at hr
    split at hr
    · rcases hf : pyErrorField body with _ | v <;> simp [hf] at hr
    · simp at hr
  · intro hm hall
    have hcm := contains_of_valid method hm
    show runAttempts api_errors c hdr method id fields iur net (9 + 1) 0 = _
    rw [runAttempts_all429 api_errors c hdr method id fields iur net hcm 9 0 (by
      intro i hi
      obtain ⟨b, hb⟩ := hall i hi
      exact ⟨b, by simpa using hb⟩)]
  · intro hm b r d h0 h1 hd
    have hcm := contains_of_valid method hm
    have ha0 : (getDataAttempt api_errors c hdr method id fields iur (net 0)).2
        = .error (.connectionRefusedError "HTTP status 429 Too Many Requests.") := by
      rw [h0, getDataAttempt_resp_valid api_errors c hdr method id fields iur _ hcm]
      exact interpret_429 api_errors b
    have ha1 : (getDataAttempt api_errors c hdr method id fields iur (net 1)).2
        = .ok d := by
      rw [h1, getDataAttempt_resp_valid api_errors c hdr method id fields iur _ hcm]
      exact hd
    show runAttempts api_errors c hdr method id fields iur net (9 + 1) 0 = _
    rw [runAttempts_succ]
    simp only [ha0, isRetryable, Bool.true_and]
    rw [if_pos (by simp)]
    have hrest : runAttempts api_errors c hdr method id fields iur net 9 (0 + 1)
        = { result := .ok d
            requests := (getDataAttempt api_errors c hdr method id fields iur (net (0 + 1))).1.toList
            waits := [] } :=
      runAttempts_ok api_errors c hdr method id fields iur net 8 (0 + 1) d (by simpa using ha1)
    simp only [hrest]
    rw [show (0 + 1 : Nat) = 1 from rfl, h1,
      getDataAttempt_resp_valid api_errors c hdr method id fields iur _ hcm,
      h0, getDataAttempt_resp_valid api_errors c hdr method id fields iur _ hcm]
    rfl
  · intro hm r e h0 he hr
    have hcm := contains_of_valid method hm
    have ha : (getDataAttempt api_errors c hdr method id fields iur (net 0)).2
        = .error e := by
      rw [h0, getDataAttempt_resp_valid api_errors c hdr method id fields iur _ hcm]
      exact he
    show runAttempts api_errors c hdr method id fields iur net (9 + 1) 0 = _
    rw [runAttempts_no_retry api_errors c hdr method id fields iur net 9 0 _ ha hr]
    rw [h0, getDataAttempt_resp_valid api_errors c hdr method id fields iur _ hcm]
    rfl
  · intro hm h0
    have hcm := contains_of_valid method hm
    have ha : (getDataAttempt api_errors c hdr method id fields iur (net 0)).2
        = .error .requestsFailure := by
      rw [h0, getDataAttempt_net_valid api_errors c hdr method id fields iur hcm]
    show runAttempts api_errors c hdr method id fields iur net (9 + 1) 0 = _
    rw [runAttempts_no_retry api_errors c hdr method id fields iur net 9 0 _ ha rfl]
    rw [h0, getDataAttempt_net_valid api_errors c hdr method id fields iur hcm]
    rfl
  · intro h1 h2
    have hc : (["paper", "author"] : List String).contains method = false := by
      simp [h1, h2]
    have ha : getDataAttempt api_errors c hdr method id fields iur (net 0)
        = (none, .error .valueError) := by
      simp [getDataAttempt, hc]
      tauto
    show runAttempts api_errors c hdr method id fields iur net (9 + 1) 0 = _
    rw [runAttempts_no_retry api_errors c hdr method id fields iur net 9 0 .valueError
      (by rw [ha]) rfl]
    rw [ha]
    rfl

/-- Claim C4, witness: with a network that always answers 429, a concrete
paper lookup makes ten requests, waits 30 seconds nine times, and surfaces
the rate-limit failure; with a concrete 403 answer the Forbidden failure propagates
after one request and no wait. -/
theorem c4_witness :
    getData [] exampleClient [] "paper" "x" [] false
        (fun _ => NetOutcome.resp { status_code := 429, body := Json.obj [] })
      = { result := .error (.connectionRefusedError "HTTP status 429 Too Many Requests.")
          requests := List.replicate 10 (buildRequest exampleClient [] "paper" "x" [] false)
          waits := List.replicate 9 30 } ∧
    getData [] exampleClient [] "paper" "x" [] false
        (fun _ => NetOutcome.resp { status_code := 403, body := Json.obj [] })
      = { result := .error (.permissionError "HTTP status 403 Forbidden.")
          requests := [buildRequest exampleClient [] "paper" "x" [] false]
          waits := [] } := by
  constructor
  · exact (c4_theorem [] exampleClient [] "paper" "x" [] false
      (fun _ => NetOutcome.resp { status_code := 429, body := Json.obj [] })).2.1
      (Or.inl rfl) (fun i _ => ⟨Json.obj [], rfl⟩)
  · exact (c4_theorem [] exampleClient [] "paper" "x" [] false
      (fun _ => NetOutcome.resp { status_code := 403, body := Json.obj [] })).2.2.2.1
      (Or.inl rfl) { status_code := 403, body := Json.obj [] }
      (.permissionError "HTTP status 403 Forbidden.") rfl rfl rfl

/-- Claim C7, counterexample: the shared lookup primitive invoked with method
selector `author` and the include-unknown-references flag requested DOES
include the parameter — the primitive only tests the flag, not the method, so
the claimed "only when the method selector is paper" is false of it. -/
theorem c7_counterexample :
    (getData [] exampleClient [] "author" "42" [] true
        (fun _ => NetOutcome.resp { status_code := 200, body := Json.obj [] })).requests
      = [{ url := "https://api.semanticscholar.org/v1/author/42"
           params := [("include_unknown_references", "true")]
           headers := [], timeout := 2 }] := rfl

/-- Claim C7, amended: the shared lookup primitive includes
`include_unknown_references=true` exactly when the flag is requested,
regardless of the method selector; consequently `author()`, which always
passes the flag as false, never includes the parameter, while
`paper(id, includeUnknownReferences=true)` always includes it. -/
theorem c7_theorem (api_errors : List String) (c : Client)
    (hdr : List (String × String)) (id : String) (fields : List String)
    (iur : Bool) (net : Nat → NetOutcome) :
    (("include_unknown_references", "true") ∈ buildPayload fields iur ↔ iur = true) ∧
    (∀ rq ∈ (Client.author api_errors c hdr id fields net).requests,
      ("include_unknown_references", "true") ∉ rq.params) ∧
    (∀ rq ∈ (Client.paper api_errors c hdr id fields true net).requests,
      ("include_unknown_references", "true") ∈ rq.params) := by
  refine ⟨include_unknown_mem_payload fields iur, ?_, ?_⟩
  · intro rq hrq
    have h := mem_requests_eq api_errors c hdr "author" id fields false net 10 0 rq hrq
    subst h
    show ("include_unknown_references", "true") ∉ buildPayload fields false
    intro hmem
    have := (include_unknown_mem_payload fields false).mp hmem
    simp at this
  · intro rq hrq
    have h := mem_requests_eq api_errors c hdr "paper" id fields true net 10 0 rq hrq
    subst h
    show ("include_unknown_references", "true") ∈ buildPayload fields true
    exact (include_unknown_mem_payload fields true).mpr rfl

/-- Claim C7, witness: concretely, the single request of an author lookup
carries no include-unknown-references parameter, and the single request of a
paper lookup with the flag requested carries it. -/
theorem c7_witness :
    ("include_unknown_references", "true") ∉
      (buildRequest exampleClient [] "author" "42" [] false).params ∧
    ("include_unknown_references", "true") ∈
      (buildRequest exampleClient [] "paper" "42" [] true).params := by
  constructor
  · exact (c7_theorem [] exampleClient [] "42" [] false
      (fun _ => NetOutcome.resp { status_code := 200, body := Json.obj [] })).2.1
      (buildRequest exampleClient [] "author" "42" [] false)
      (List.mem_singleton.mpr rfl)
  · exact (c7_theorem [] exampleClient [] "42" [] false
      (fun _ => NetOutcome.resp { status_code := 200, body := Json.obj [] })).2.2
      (buildRequest exampleClient [] "paper" "42" [] true)
      (List.mem_singleton.mpr rfl)

/-- Claim C8: every request of a paper lookup with a non-empty field selector
carries exactly one `fields` query parameter, whose value is the comma-join
of the selector — concretely `fields=title,year` for `["title", "year"]` —
while with an empty selector no request carries a `fields` parameter at
all. -/
theorem c8_theorem (api_errors : List String) (c : Client)
    (hdr : List (String × String)) (id : String) (fields : List String)
    (iur : Bool) (net : Nat → NetOutcome) :
    (fields ≠ [] →
      ∀ rq ∈ (Client.paper api_errors c hdr id fields iur net).requests,
        rq.params.filter (fun p => p.1 == "fields")
          = [("fields", String.intercalate "," fields)]) ∧
    (∀ rq ∈ (Client.paper api_errors c hdr id ([] : List String) iur net).requests,
      rq.params.filter (fun p => p.1 == "fields") = []) ∧
    ("fields", "title,year") ∈ buildPayload ["title", "year"] iur := by
  refine ⟨?_, ?_, ?_⟩
  · intro hne rq hrq
    have h := mem_requests_eq api_errors c hdr "paper" id fields iur net 10 0 rq hrq
    subst h
    show (buildPayload fields iur).filter (fun p => p.1 == "fields") = _
    rw [payload_filter]
    simp [hne]
  · intro rq hrq
    have h := mem_requests_eq api_errors c hdr "paper" id [] iur net 10 0 rq hrq
    subst h
    show (buildPayload [] iur).filter (fun p => p.1 == "fields") = _
    rw [payload_filter]
    rfl
  · cases iur <;> decide

/-- Claim C8, witness: the single request of a concrete paper lookup with
fields `["title", "year"]` carries exactly `fields=title,year`, and with no
fields it carries no `fields` parameter. -/
theorem c8_witness :
    (buildRequest exampleClient [] "paper" "42" ["title", "year"] false).params.filter
        (fun p => p.1 == "fields")
      = [("fields", "title,year")] ∧
    (buildRequest exampleClient [] "paper" "42" [] false).params.filter
        (fun p => p.1 == "fields")
      = [] := by
  constructor
  · exact (c8_theorem [] exampleClient [] "42" ["title", "year"] false
      (fun _ => NetOutcome.resp { status_code := 200, body := Json.obj [] })).1
      (by decide)
      (buildRequest exampleClient [] "paper" "42" ["title", "year"] false)
      (List.mem_singleton.mpr rfl)
  · exact (c8_theorem [] exampleClient [] "42" ["title", "year"] false
      (fun _ => NetOutcome.resp { status_code := 200, body := Json.obj [] })).2.1
      (buildRequest exampleClient [] "paper" "42" [] false)
      (List.mem_singleton.mpr rfl)

end SemanticScholarSpec
